import Mathlib

/-!
Verification development for the Canvas → Notion assignment-sync repository.

The Python sources are shallowly embedded below.  Instants (Python
timezone-aware `datetime` values) are modelled as rationals counting seconds,
so that `timedelta(days=n)` becomes `n * 86400` and
`(a - b).total_seconds() / 86400.0` becomes `(a - b) / 86400`.  Python `dict`
property payloads are modelled as association lists in insertion order, and
Python truthiness of optional strings / ints is made explicit by the
`truthyStr` / `truthyInt` helpers.  Remote I/O (the Notion and Canvas HTTP
clients) is modelled by oracles describing the responses the remote would
give, while the requests and mutating calls the code issues are captured in
explicit request structures and call traces.
-/

namespace CanvasNotionSync

/-- Python truthiness of an optional string (`if x:` on `str | None`):
`None` and the empty string are falsy. -/
def truthyStr : Option String → Bool
  | none => false
  | some s => !(s = "")

/-- Python truthiness of an optional integer (`if x:` on `int | None`):
`None` and `0` are falsy. -/
def truthyInt : Option Int → Bool
  | none => false
  | some n => !(n = 0)

/-- Python `x or default` on an optional string, returning a plain string. -/
def orFalsyStr (x : Option String) (default : String) : String :=
  match x with
  | none => default
  | some s => if s = "" then default else s

/-- Python `x or y` on two optional strings. -/
def orFalsyOpt (x y : Option String) : Option String :=
  if truthyStr x then x else y

/-- Python `f"...{v}"` rendering of an optional int (`None` prints as `None`). -/
def pyOptIntStr : Option Int → String
  | none => "None"
  | some n => toString n

/-! ## sync.py: `days_until` and `calc_priority` -/

/-- `(due_dt - NOW_UTC).total_seconds() / 86400.0` for a present due date. -/
def days_until_val (now due : ℚ) : ℚ := (due - now) / 86400

/-- sync.py `days_until`: `math.inf` for a missing due date is modelled as
`none`; otherwise the signed fractional day count until the due instant. -/
def days_until (now : ℚ) (due : Option ℚ) : Option ℚ :=
  due.map (days_until_val now)

/-- sync.py `calc_priority`: missing due date yields "Later"; otherwise the
label is chosen from the fractional day distance `d = days_until(due)`. -/
def calc_priority (now : ℚ) (due : Option ℚ) : String :=
  match due with
  | none => "Later"
  | some dt =>
    let d := days_until_val now dt
    if d < 0 then "Overdue"
    else if d ≤ 2 then "High"
    else if d ≤ 5 then "Medium"
    else if d ≤ 7 then "Low"
    else "Later"

/-- The closed label set `calc_priority` draws from. -/
def priorityLabels : List String := ["Overdue", "High", "Medium", "Low", "Later"]

/-- Urgency order on the labels: Overdue is most urgent, Later least. -/
def urgencyRank (s : String) : Nat :=
  if s = "Overdue" then 4
  else if s = "High" then 3
  else if s = "Medium" then 2
  else if s = "Low" then 1
  else 0

/-! ## sync.py: time-window filter of the sync driver -/

/-- The skip test at sync.py lines 373–376:
`if due_at and not (NOW_UTC - timedelta(days=30) <= due_at <= NOW_UTC + timedelta(days=180)): continue`.
A missing due date is falsy, so such a record is never skipped. -/
def windowSkip (now : ℚ) (due_at : Option ℚ) : Bool :=
  match due_at with
  | none => false
  | some d => !(decide (now - 30 * 86400 ≤ d ∧ d ≤ now + 180 * 86400))

/-! ## Notion property payload values

Every property payload value this code builds is a Python dict with a single
type-named key: `{"date": ...}`, `{"title": [...]}`, `{"select": {...}}`,
`{"multi_select": [...]}`, `{"number": ...}`, `{"url": ...}` or
`{"rich_text": [...]}`.  Each constructor below models one of those shapes;
only the payload content the code actually reads back is retained (e.g. a
title keeps just its text content). -/

/-- The object under a `"date"` key: `{"start": ...}` where `start` may be
absent/None (modelled `none`) or a rendered ISO string. -/
structure DateObj where
  start : Option String
deriving DecidableEq, Repr

inductive PropValue where
  /-- `{"date": d}` with `d` either `None` or a `{"start": ...}` object. -/
  | date (d : Option DateObj)
  /-- `{"title": [{"type": "text", "text": {"content": c}}]}`. -/
  | title (content : String)
  /-- `{"select": {"name": v}}`. -/
  | select (name : String)
  /-- `{"multi_select": [{"name": o}, ...]}`. -/
  | multiSelect (names : List String)
  /-- `{"number": n}` (the value may be None). -/
  | number (n : Option Int)
  /-- `{"url": u}` (the value may be None). -/
  | url (u : Option String)
  /-- `{"rich_text": [{"text": {"content": c}}]}`. -/
  | richTextVal (content : String)
deriving DecidableEq, Repr

/-- Abstraction of `dt_obj.astimezone(LOCAL_TZ).isoformat()`: an injective
rendering of the instant as a string. -/
def ratIso (t : ℚ) : String := toString t

/-! ## sync.py property builders (`make_title` … `make_number`) -/

/-- Python `name or "(untitled)"` from sync.py `make_title`. -/
def orUntitled : Option String → String
  | none => "(untitled)"
  | some s => if s = "" then "(untitled)" else s

/-- sync.py `make_title`: wraps the (defaulted) name as a title payload. -/
def make_title (name : Option String) : PropValue :=
  PropValue.title (orUntitled name)

/-- sync.py `make_select`: `None` for a falsy value, else a select payload. -/
def make_select (val : Option String) : Option PropValue :=
  if truthyStr val then some (PropValue.select (val.getD "")) else none

/-- sync.py `make_multi_select`: keeps only truthy option names, in order. -/
def make_multi_select (options : List (Option String)) : PropValue :=
  PropValue.multiSelect (((options.filterMap id).filter (fun s => !(s = ""))))

/-- sync.py `make_date`: `{"date": None}` for a missing due date, else
`{"date": {"start": iso}}` (`dt_to_notion_date` keeps only `start`). -/
def make_date (dt : Option ℚ) : PropValue :=
  match dt with
  | none => PropValue.date none
  | some t => PropValue.date (some ⟨some (ratIso t)⟩)

/-- sync.py `make_url`: `{"url": url}` when truthy else `{"url": None}`. -/
def make_url (u : Option String) : PropValue :=
  PropValue.url (if truthyStr u then u else none)

/-- sync.py `make_number`: both arms produce `{"number": n}`. -/
def make_number (n : Option Int) : PropValue :=
  PropValue.number n

/-! ## sync.py `infer_assignment_type` -/

/-- Whether the character list starts with the pattern. -/
def strStartsWith : List Char → List Char → Bool
  | _, [] => true
  | [], _ :: _ => false
  | c :: cs, p :: ps => c == p && strStartsWith cs ps

/-- Python `pat in s` on character lists. -/
def hasSubstring : List Char → List Char → Bool
  | [], pat => pat.isEmpty
  | c :: cs, pat => strStartsWith (c :: cs) pat || hasSubstring cs pat

/-- sync.py `infer_assignment_type`: quiz when `quiz_id` is truthy, a test
when the lowercased name mentions exam/midterm/final/test, else assignment. -/
def infer_assignment_type (quiz_id : Option Int) (name : Option String) : String :=
  if truthyInt quiz_id then "Quiz"
  else
    let nm := ((orFalsyStr name "").toLower).toList
    if hasSubstring nm "exam".toList || hasSubstring nm "midterm".toList ||
       hasSubstring nm "final".toList || hasSubstring nm "test".toList then "Test"
    else "Assignment"

/-! ## sync.py records and `build_props` -/

/-- One raw Canvas assignment as consumed by the sync loop.  The submission
sub-fetch (`a.get("submission") or fetch_submission(...)`) is collapsed to its
parsed `submitted_at` outcome. -/
structure RawAssignment where
  id : Option Int
  name : Option String
  due_at : Option ℚ
  submitted_at : Option ℚ
  quiz_id : Option Int
  html_url : Option String
  url : Option String

/-- The `record` dict built inside sync.py `sync()` (and consumed by
`build_props`).  Optional fields model keys that may be absent/None. -/
structure SyncRecord where
  canvas_id : Option Int
  name : Option String
  class_ : Option String
  teacher : Option String
  assignment_type : Option String
  due_at : Option ℚ
  status : Option String
  priority : Option String
  html_url : Option String

/-- The record literal sync.py builds for one in-window assignment. -/
def sync_record_of (now : ℚ) (class_name teacher_name : String)
    (a : RawAssignment) : SyncRecord :=
  { canvas_id := a.id
    name := some (orFalsyStr a.name ("Assignment " ++ pyOptIntStr a.id))
    class_ := some class_name
    teacher := some teacher_name
    assignment_type := some (infer_assignment_type a.quiz_id a.name)
    due_at := a.due_at
    status := some (if a.submitted_at.isSome then "Completed" else "Not started")
    priority := some (calc_priority now a.due_at)
    html_url := orFalsyOpt a.html_url a.url }

/-- The per-assignment step of sync.py `sync()` up to (and including) the
time-window filter: a skipped assignment is neither mapped through
`build_props` nor upserted, an in-window one yields the record that is. -/
def processAssignment (now : ℚ) (class_name teacher_name : String)
    (a : RawAssignment) : Option SyncRecord :=
  if windowSkip now a.due_at then none
  else some (sync_record_of now class_name teacher_name a)

/-- sync.py `build_props`: builds the property payload dict for one record,
in insertion order.  Note it takes no schema argument. -/
def build_props (record : SyncRecord) : List (String × PropValue) :=
  [("Assignment Name", make_title record.name)]
  ++ (match record.class_ with
      | none => []
      | some c => [("Class", (make_select (some c)).getD (PropValue.richTextVal c))])
  ++ (match record.teacher with
      | none => []
      | some t => [("Teacher", (make_select (some t)).getD (PropValue.richTextVal t))])
  ++ [("Tags", make_multi_select [record.class_, record.teacher]),
      ("Assignment Type",
        (make_select record.assignment_type).getD
          (PropValue.richTextVal (record.assignment_type.getD ""))),
      ("Due Date", make_date record.due_at),
      ("Status",
        (make_select record.status).getD
          (PropValue.richTextVal (record.status.getD ""))),
      ("Priority",
        (make_select record.priority).getD
          (PropValue.richTextVal (record.priority.getD "")))]
  ++ (match record.canvas_id with
      | none => []
      | some cid => [("Canvas ID", make_number (some cid))])
  ++ [("Canvas URL", make_url record.html_url)]

/-! ## Notion database schema model (notion_api.py)

A retrieved database is `db["properties"]`: a name-keyed mapping (insertion
ordered, unique keys) from property name to a property object carrying its
type and, for select/multi-select/status properties, its option list. -/

/-- One select/multi-select/status option (`{"name": ..., "color": ...}`);
options fetched from Notion may carry extra fields, summarised by `color`. -/
structure SelectOption where
  name : String
  color : Option String
deriving DecidableEq, Repr

inductive NotionPropType where
  | title | status | checkbox | select | multiSelect | richText | date
  | number | url | other
deriving DecidableEq, Repr

structure NotionProp where
  type : NotionPropType
  /-- Option list for select / multi-select / status properties; `[]` for
  the other types. -/
  options : List SelectOption
deriving DecidableEq, Repr

/-- `db["properties"]` in insertion order with unique keys. -/
structure NotionDb where
  properties : List (String × NotionProp)
deriving DecidableEq, Repr

/-- `db["properties"].get(name)`. -/
def getProp (db : NotionDb) (name : String) : Option NotionProp :=
  (db.properties.find? (fun np => decide (np.1 = name))).map (·.2)

/-- notion_api.py `_normalize`: strip/lower then drop every character that is
not an ASCII lowercase letter or digit. -/
def normalizeKey (s : String) : String :=
  String.mk ((s.toLower).toList.filter
    (fun c => (('a' ≤ c && c ≤ 'z') || ('0' ≤ c && c ≤ '9'))))

/-- notion_api.py `_first_title_prop` (returns `none` where the Python raises
`SystemExit`): the first property of type title. -/
def first_title_prop (db : NotionDb) : Option String :=
  (db.properties.find? (fun np => decide (np.2.type = NotionPropType.title))).map (·.1)

/-- notion_api.py `_status_prop_and_options`: first status property and its
option names, or `(None, [])`. -/
def status_prop_and_options (db : NotionDb) : Option String × List String :=
  match db.properties.find? (fun np => decide (np.2.type = NotionPropType.status)) with
  | some np => (some np.1, np.2.options.map (·.name))
  | none => (none, [])

/-- Lookup in the `{_normalize(o): o for o in options}` dict: later entries
overwrite earlier ones, so search the reversed list. -/
def normDictGet (options : List String) (key : String) : Option String :=
  options.reverse.find? (fun o => decide (normalizeKey o = key))

/-- The inner `pick` of notion_api.py `status_label_mapping`: the first
candidate whose normalised form is a key of the normalised-options dict. -/
def pickStatus (options : List String) (candidates : List String) : Option String :=
  candidates.findSome? (fun c => normDictGet options (normalizeKey c))

structure StatusLabels where
  not_started : Option String
  started : Option String
  completed : Option String
deriving DecidableEq, Repr

/-- notion_api.py `status_label_mapping`. -/
def status_label_mapping (db : NotionDb) : Option String × StatusLabels :=
  match status_prop_and_options db with
  | (none, _) => (none, ⟨none, none, none⟩)
  | (some prop, options) =>
    let ns := pickStatus options ["Not started", "To-do", "Todo", "Backlog", "To do"]
    let st := pickStatus options ["Started", "In progress", "Doing", "In Progress"]
    let co := pickStatus options ["Completed", "Done", "Complete", "Finished"]
    let ns := if !(truthyStr ns) && !options.isEmpty then options.head? else ns
    let co := if !(truthyStr co) && !options.isEmpty then options.getLast? else co
    (some prop, ⟨ns, st, co⟩)

/-- notion_api.py `_checkbox_named`: the wanted name when it is a checkbox,
else the first checkbox property, else `None`. -/
def checkbox_named (db : NotionDb) (want_name : String) : Option String :=
  match getProp db want_name with
  | some p =>
    if p.type = NotionPropType.checkbox then some want_name
    else (db.properties.find? (fun np => decide (np.2.type = NotionPropType.checkbox))).map (·.1)
  | none =>
    (db.properties.find? (fun np => decide (np.2.type = NotionPropType.checkbox))).map (·.1)

/-- notion_api.py `_prop_if_type`. -/
def prop_if_type (db : NotionDb) (name : String) (want_types : List NotionPropType) :
    Option String :=
  match getProp db name with
  | some p => if p.type ∈ want_types then some name else none
  | none => none

/-- notion_api.py `_find_multi_select` with its default preferred names. -/
def find_multi_select (db : NotionDb) : Option String :=
  match ["Tags", "Class", "Teacher"].find?
      (fun nm => (getProp db nm).any (fun p => decide (p.type = NotionPropType.multiSelect))) with
  | some nm => some nm
  | none =>
    (db.properties.find? (fun np => decide (np.2.type = NotionPropType.multiSelect))).map (·.1)

/-- The `date_candidates` list of `get_flexible_schema`. -/
def dateCandidates : List String := ["Date", "Due date", "Due Date", "Calendar Date", "Calendar"]

/-- First rich-text property of the database (the inner last-resort loop). -/
def firstRichTextProp (db : NotionDb) : Option String :=
  (db.properties.find? (fun np => decide (np.2.type = NotionPropType.richText))).map (·.1)

/-- The text-date loop of `get_flexible_schema`: for each candidate name, a
rich-text property of that name wins outright (break); otherwise the inner
last-resort loop overwrites the accumulator with the first rich-text
property, if any, and the outer loop continues. -/
def textDateLoop (db : NotionDb) : List String → Option String → Option String
  | [], acc => acc
  | nm :: rest, acc =>
    if truthyStr (prop_if_type db nm [NotionPropType.richText]) then some nm
    else textDateLoop db rest ((firstRichTextProp db).orElse (fun _ => acc))

/-- The schema summary returned by notion_api.py `get_flexible_schema`. -/
structure FlexSchema where
  title_prop : String
  status_prop : Option String
  status_labels : StatusLabels
  done_checkbox : Option String
  class_prop : Option String
  teacher_prop : Option String
  type_prop : Option String
  priority_prop : Option String
  due_date_prop_date : Option String
  due_date_prop_text : Option String
  tags_prop : Option String
deriving DecidableEq, Repr

/-- notion_api.py `get_flexible_schema` (`.error` models the `SystemExit`
raised by `_first_title_prop` when no title property exists). -/
def get_flexible_schema (db : NotionDb) : Except String FlexSchema :=
  match first_title_prop db with
  | none => Except.error "No title property found in this Notion database."
  | some title_prop =>
    let sl := status_label_mapping db
    Except.ok
      { title_prop := title_prop
        status_prop := sl.1
        status_labels := sl.2
        done_checkbox := checkbox_named db "Done"
        class_prop := prop_if_type db "Class" [NotionPropType.multiSelect]
        teacher_prop := prop_if_type db "Teacher" [NotionPropType.multiSelect]
        type_prop := prop_if_type db "Type" [NotionPropType.select]
        priority_prop := prop_if_type db "Priority" [NotionPropType.select]
        due_date_prop_date :=
          dateCandidates.find? (fun nm => truthyStr (prop_if_type db nm [NotionPropType.date]))
        due_date_prop_text := textDateLoop db dateCandidates none
        tags_prop :=
          orFalsyOpt (prop_if_type db "Tags" [NotionPropType.multiSelect])
            (find_multi_select db) }

/-! ## Taxonomy option management

notion_api.py `_ensure_select_options_for` and sync.py `ensure_select_options`
each read the current option list and possibly issue one `databases.update`
call.  Both are modelled as returning the schema-update call they issue, or
`none` when they return without writing. -/

/-- notion_api.py `_ensure_select_options_for`: no-op unless the property
exists with exactly the requested kind; computes the missing (truthy) wanted
names against the current option names and, only when some are missing,
issues one update carrying existing options plus `{"name": n}` appendees. -/
def ensure_select_options_for (db : NotionDb) (prop_name : String)
    (want_names : List String) (kind : NotionPropType) : Option (List SelectOption) :=
  match getProp db prop_name with
  | none => none
  | some prop =>
    if prop.type = kind then
      let haveNames := prop.options.map (·.name)
      let missing := want_names.filter (fun n => !(n = "") && !(decide (n ∈ haveNames)))
      if missing.isEmpty then none
      else some (prop.options ++ missing.map (fun n => SelectOption.mk n none))
    else none

/-- sync.py `ensure_select_options`: warns and returns when the property is
absent; returns when it is neither select nor multi-select; otherwise appends
the wanted `(name, color)` pairs whose name is not yet present and issues one
`databases.update` call — unconditionally, even when nothing was missing. -/
def ensure_select_options (db : NotionDb) (prop_name : String)
    (new_option_names_with_colors : List (String × String)) :
    Option (NotionPropType × List SelectOption) :=
  match getProp db prop_name with
  | none => none
  | some prop =>
    let kind :=
      if prop.type = NotionPropType.select then some NotionPropType.select
      else if prop.type = NotionPropType.multiSelect then some NotionPropType.multiSelect
      else none
    match kind with
    | none => none
    | some k =>
      let existing := prop.options.map (·.name)
      let merged := prop.options ++
        (new_option_names_with_colors.filter (fun nc => !(decide (nc.1 ∈ existing)))).map
          (fun nc => SelectOption.mk nc.1 (some nc.2))
      some (k, merged)

/-- Effect on the database of the `databases.update` call issued by the
option-management functions: the named property's option list is replaced,
its type untouched. -/
def applyOptionsUpdate (db : NotionDb) (prop_name : String)
    (newOpts : List SelectOption) : NotionDb :=
  ⟨db.properties.map (fun np =>
    if np.1 = prop_name then (np.1, { np.2 with options := newOpts }) else np)⟩

/-! ## Query requests (identity-resolution lookups) -/

inductive QFilter where
  /-- `{"property": p, "number": {"equals": n}}` (`n` may be null). -/
  | numberEq (prop : String) (n : Option Int)
  /-- `{"property": p, "title": {"equals": text}}`. -/
  | titleEq (prop : String) (text : String)
  /-- `{"property": p, "select": {"equals": v}}`. -/
  | selectEq (prop : String) (name : String)
  /-- `{"property": p, "date": {"equals": iso}}`. -/
  | dateEq (prop : String) (iso : String)
  /-- `{"property": p, "rich_text": {"equals": text}}`. -/
  | richTextEq (prop : String) (text : String)
  /-- `{"and": [...]}`. -/
  | conj (filters : List QFilter)

/-- One `databases.query` request body: its filter and, when present, the
`page_size` bound sent with it (absent means the destination default). -/
structure QueryRequest where
  filter : QFilter
  page_size : Option Nat

/-- notion_api.py `query_by_canvas_id`: Canvas-ID equality with
`page_size=3`.  (`canvas_id` is typed `Option Int` so the engine can pass a
record with no identifier through unchanged.) -/
def query_by_canvas_id_request (canvas_id : Option Int) : QueryRequest :=
  { filter := QFilter.numberEq "Canvas ID" canvas_id
    page_size := some 3 }

/-- notion_api.py `query_by_title_and_date`: title equality plus whichever of
the real-date / text-date filters is available, with `page_size=3`;
a single filter is sent bare, several are wrapped in `{"and": ...}`. -/
def query_by_title_and_date_request (title_prop : String)
    (due_date_prop_date due_date_prop_text : Option String)
    (title_text : String) (due_str_iso due_str_mdy : Option String) : QueryRequest :=
  let filters := [QFilter.titleEq title_prop title_text]
    ++ (if truthyStr due_date_prop_date && truthyStr due_str_iso then
          [QFilter.dateEq (due_date_prop_date.getD "") (due_str_iso.getD "")] else [])
    ++ (if truthyStr due_date_prop_text && truthyStr due_str_mdy then
          [QFilter.richTextEq (due_date_prop_text.getD "") (due_str_mdy.getD "")] else [])
  { filter :=
      match filters with
      | [f] => f
      | fs => QFilter.conj fs
    page_size := some 3 }

/-- The filter list sync.py `notion_query_by_unique` assembles: Canvas-ID
equality when an id is given, else the truthy name / class / due-date
filters (the due date pre-rendered to its local ISO date string). -/
def notion_query_by_unique_filters (canvas_id : Option Int) (name : Option String)
    (class_name : Option String) (due_date_iso : Option String) : List QFilter :=
  match canvas_id with
  | some cid => [QFilter.numberEq "Canvas ID" (some cid)]
  | none =>
    (if truthyStr name then [QFilter.titleEq "Assignment Name" (name.getD "")] else [])
    ++ (if truthyStr class_name then [QFilter.selectEq "Class" (class_name.getD "")] else [])
    ++ (match due_date_iso with
        | some s => [QFilter.dateEq "Due Date" s]
        | none => [])

/-- sync.py `notion_query_by_unique`: with no filters at all the function
returns `[]` without any remote call (`none` here); otherwise the request
wraps the filters in `{"and": ...}` and sets no `page_size`. -/
def notion_query_by_unique_request (canvas_id : Option Int) (name : Option String)
    (class_name : Option String) (due_date_iso : Option String) : Option QueryRequest :=
  match notion_query_by_unique_filters canvas_id name class_name due_date_iso with
  | [] => none
  | fs => some { filter := QFilter.conj fs, page_size := none }

/-- Modelled from the spec: one destination row's property values, restricted
to the four properties the sync.py lookup filters address — the
"Assignment Name" title, the "Class" select, the "Due Date" date and the
"Canvas ID" number (spec §3 TargetRecord, §6 Destination Adapter). -/
structure TargetRecordProps where
  title : String
  classSelect : Option String
  dueDateIso : Option String
  canvasId : Option Int
deriving DecidableEq, Repr

mutual
/-- Modelled from the spec: destination-side evaluation of a query filter
against one row — exact equality per property kind, `{"and": ...}` as
conjunction (spec §6 `query(db_id, filter)`); rich-text filters address no
property of this row shape. -/
def qfilterMatches (r : TargetRecordProps) : QFilter → Bool
  | QFilter.numberEq _ n => r.canvasId == n
  | QFilter.titleEq _ text => r.title == text
  | QFilter.selectEq _ v => r.classSelect == some v
  | QFilter.dateEq _ iso => r.dueDateIso == some iso
  | QFilter.richTextEq _ _ => false
  | QFilter.conj fs => qfiltersAll r fs

/-- Conjunction of a filter list against one row. -/
def qfiltersAll (r : TargetRecordProps) : List QFilter → Bool
  | [] => true
  | f :: fs => qfilterMatches r f && qfiltersAll r fs
end

/-- Modelled from the spec: the destination returns the rows satisfying the
filter, in destination order (spec §6 `query` returns a bounded page of
matching records). -/
def queryEval (pages : List (Page × TargetRecordProps)) (f : QFilter) : List Page :=
  (pages.filter (fun pr => qfilterMatches pr.2 f)).map (·.1)

/-- Whether a filter list contains any identifier (number-equality) filter. -/
def hasIdFilter (fs : List QFilter) : Bool :=
  fs.any (fun f => match f with
    | QFilter.numberEq _ _ => true
    | _ => false)

/-! ## Date normalisation for create/update payloads (notion_api.py) -/

/-- notion_api.py `_is_null_date`: the value is a dict (always, for the
payloads built here), its `"date"` key is `None` — which also holds for every
non-date payload dict, since `.get("date")` returns `None` — or its date
object's `start` is `None`/empty. -/
def is_null_date : PropValue → Bool
  | PropValue.date none => true
  | PropValue.date (some d) => d.start = none || d.start = some ""
  | _ => true

/-- notion_api.py `_normalize_date_for_update`: rewrite every null-like date
value to the explicit clear instruction `{"date": None}`. -/
def normalize_date_for_update (props : List (String × PropValue)) :
    List (String × PropValue) :=
  props.map (fun kv => if is_null_date kv.2 then (kv.1, PropValue.date none) else kv)

/-- notion_api.py `_drop_null_dates_for_create`: drop every null-like date
entry from the create payload. -/
def drop_null_dates_for_create (props : List (String × PropValue)) :
    List (String × PropValue) :=
  props.filter (fun kv => !(is_null_date kv.2))

/-! ## The upsert engine (notion_api.py `upsert_page`)

The remote's behaviour is an oracle: the (retry-wrapped) outcome of each of
the two lookups, whether a `pages.update` / `pages.create` call raises
`APIResponseError`, and the id a successful create returns.  `upsert_page`
returns its Python result (or the propagated exception) together with the
ordered trace of remote calls it issued. -/

structure Page where
  id : String
deriving DecidableEq, Repr

inductive QueryResult where
  /-- The query returned `{"results": [...]}`. -/
  | ok (results : List Page)
  /-- The query raised `APIResponseError` (after retries / recovery). -/
  | apiError
deriving DecidableEq, Repr

structure Remote where
  /-- Outcome of `query_by_canvas_id` for this record. -/
  byCanvasId : QueryResult
  /-- Outcome of `query_by_title_and_date` for this record. -/
  byTitleDate : QueryResult
  /-- Whether a `client.pages.update` call raises `APIResponseError`. -/
  updateRaises : Bool
  /-- Whether a `client.pages.create` call raises `APIResponseError`. -/
  createRaises : Bool
  /-- `page["id"]` of a successfully created page. -/
  newPageId : String

inductive Call where
  | lookupById (request : QueryRequest)
  | lookupByTitleDate (request : QueryRequest)
  | updatePage (pageId : String) (props : List (String × PropValue))
  | createPage (props : List (String × PropValue))

inductive UpsertError where
  | apiError
deriving DecidableEq, Repr

/-- notion_api.py `upsert_page`.  De-dup order: (1) Canvas-ID match →
update; (2) when `title_prop` and `title_text` are truthy, title+date match →
update, with any `APIResponseError` inside that block swallowed (note the
`props` rebinding to the normalized payload survives into the create); (3)
create with null-like dates dropped. -/
def upsert_page (remote : Remote) (canvas_id : Option Int)
    (props : List (String × PropValue)) (title_prop title_text : Option String)
    (due_date_prop_date due_str_iso due_date_prop_text due_str_mdy : Option String) :
    Except UpsertError (String × String) × List Call :=
  let idReq := query_by_canvas_id_request canvas_id
  match remote.byCanvasId with
  | QueryResult.apiError => (Except.error UpsertError.apiError, [Call.lookupById idReq])
  | QueryResult.ok (p :: _) =>
    let props1 := normalize_date_for_update props
    if remote.updateRaises then
      (Except.error UpsertError.apiError,
       [Call.lookupById idReq, Call.updatePage p.id props1])
    else
      (Except.ok (p.id, "updated"),
       [Call.lookupById idReq, Call.updatePage p.id props1])
  | QueryResult.ok [] =>
    if truthyStr title_prop && truthyStr title_text then
      let fbReq := query_by_title_and_date_request (title_prop.getD "")
        due_date_prop_date due_date_prop_text (title_text.getD "") due_str_iso due_str_mdy
      match remote.byTitleDate with
      | QueryResult.ok (p :: _) =>
        let props1 := normalize_date_for_update props
        if remote.updateRaises then
          -- the update's APIResponseError is swallowed by the surrounding
          -- try/except and control falls through to the create step, with
          -- `props` already rebound to the normalized payload
          let clean := drop_null_dates_for_create props1
          if remote.createRaises then
            (Except.error UpsertError.apiError,
             [Call.lookupById idReq, Call.lookupByTitleDate fbReq,
              Call.updatePage p.id props1, Call.createPage clean])
          else
            (Except.ok (remote.newPageId, "created"),
             [Call.lookupById idReq, Call.lookupByTitleDate fbReq,
              Call.updatePage p.id props1, Call.createPage clean])
        else
          (Except.ok (p.id, "updated"),
           [Call.lookupById idReq, Call.lookupByTitleDate fbReq,
            Call.updatePage p.id props1])
      | QueryResult.ok [] | QueryResult.apiError =>
        let clean := drop_null_dates_for_create props
        if remote.createRaises then
          (Except.error UpsertError.apiError,
           [Call.lookupById idReq, Call.lookupByTitleDate fbReq, Call.createPage clean])
        else
          (Except.ok (remote.newPageId, "created"),
           [Call.lookupById idReq, Call.lookupByTitleDate fbReq, Call.createPage clean])
    else
      let clean := drop_null_dates_for_create props
      if remote.createRaises then
        (Except.error UpsertError.apiError, [Call.lookupById idReq, Call.createPage clean])
      else
        (Except.ok (remote.newPageId, "created"),
         [Call.lookupById idReq, Call.createPage clean])

/-- The create-or-update decision of sync.py lines 405–411: update the first
returned page when the lookup found any, else create; the payload is sent
unchanged on both paths. -/
def sync_upsert_step (results : List Page) (props : List (String × PropValue)) : Call :=
  match results with
  | p :: _ => Call.updatePage p.id props
  | [] => Call.createPage props

/-- Page ids targeted by the update calls of a trace. -/
def updatesOf (trace : List Call) : List String :=
  trace.filterMap (fun c => match c with
    | Call.updatePage pid _ => some pid
    | _ => none)

/-- Payloads of the create calls of a trace. -/
def createsOf (trace : List Call) : List (List (String × PropValue)) :=
  trace.filterMap (fun c => match c with
    | Call.createPage ps => some ps
    | _ => none)

/-- Number of fallback (title+date) lookups in a trace. -/
def fallbackLookupCount (trace : List Call) : Nat :=
  (trace.filter (fun c => match c with
    | Call.lookupByTitleDate _ => true
    | _ => false)).length

/-! ## utils.py `retry`

The wrapped function's behaviour is an oracle `f : Nat → Except E A` giving
the outcome of its `i`-th invocation (every raised error is assumed to match
the decorator's `exceptions` tuple, the case the retry loop handles).
`retryRun f backoff tries delay calls` mirrors the
`while _tries > 1: try ... except: sleep(_delay); _tries -= 1; _delay *= backoff`
loop followed by the final unguarded call, returning the overall outcome, the
total number of invocations made so far (`calls` were made before entry), and
the list of sleep durations in order. -/

def retryRun {E A : Type} (f : Nat → Except E A) (backoff : ℚ) :
    Nat → ℚ → Nat → Except E A × Nat × List ℚ
  | 0, _, calls => (f calls, calls + 1, [])
  | 1, _, calls => (f calls, calls + 1, [])
  | t + 2, delay, calls =>
    match f calls with
    | Except.ok a => (Except.ok a, calls + 1, [])
    | Except.error _ =>
      let r := retryRun f backoff (t + 1) (delay * backoff) (calls + 1)
      (r.1, r.2.1, delay :: r.2.2)

/-- utils.py `retry(exceptions, tries, delay, backoff)` applied to a call:
run the retry loop from the initial state. -/
def retry {E A : Type} (f : Nat → Except E A) (tries : Nat) (delay backoff : ℚ) :
    Except E A × Nat × List ℚ :=
  retryRun f backoff tries delay 0

/-- Behaviour bundle of the retry policy: an attempt ceiling of `tries` total
invocations; sleeps of `delay * backoff ^ i` between consecutive attempts;
the first success within the ceiling is returned immediately; and when every
attempt fails the failure propagates after exactly `tries` invocations. -/
def RetrySpec {E A : Type} (f : Nat → Except E A) (tries : Nat) (delay backoff : ℚ) : Prop :=
  (retry f tries delay backoff).2.1 ≤ tries
  ∧ (retry f tries delay backoff).2.2 =
      (List.range ((retry f tries delay backoff).2.1 - 1)).map (fun i => delay * backoff ^ i)
  ∧ (∀ (a : A) (k : Nat), k < tries → (∀ j, j < k → (f j).isOk = false) →
      f k = Except.ok a →
      (retry f tries delay backoff).1 = Except.ok a
        ∧ (retry f tries delay backoff).2.1 = k + 1)
  ∧ ((∀ j, (f j).isOk = false) →
      ((retry f tries delay backoff).1).isOk = false
        ∧ (retry f tries delay backoff).2.1 = tries)

/-! ## Concrete probe values used by witnesses -/

/-- A call that fails transiently on its first two invocations and then
succeeds. -/
def retryProbe (j : Nat) : Except Unit Nat :=
  if j < 2 then Except.error () else Except.ok 7

/-- A raw assignment due well outside the 180-day look-ahead (in seconds). -/
def rawA0 : RawAssignment := ⟨none, some "HW", some 20000000, none, none, none, none⟩

/-- A raw assignment with no due date. -/
def rawA1 : RawAssignment := ⟨none, some "HW", none, none, none, none, none⟩

/-- A 2001-character title. -/
def longTitleProbe : String := String.mk (List.replicate 2001 'a')

/-- A record carrying a teacher name (and no due date). -/
def teacherRecordProbe : SyncRecord :=
  { canvas_id := some 501
    name := some "Essay 1"
    class_ := some "History 101"
    teacher := some "J. Smith"
    assignment_type := some "Assignment"
    due_at := none
    status := some "Not started"
    priority := some "Later"
    html_url := none }

/-- A database whose select property "Priority" already has a "High"
option. -/
def dbPriorityHigh : NotionDb :=
  ⟨[("Priority", ⟨NotionPropType.select, [⟨"High", some "orange"⟩]⟩)]⟩

/-- A database whose only Teacher property has the wrong (rich-text) type. -/
def dbNoTeacher : NotionDb :=
  ⟨[("Name", ⟨NotionPropType.title, []⟩), ("Teacher", ⟨NotionPropType.richText, []⟩)]⟩

/-- The flexible schema `get_flexible_schema` computes for `dbNoTeacher`:
the rich-text Teacher property is rejected as a teacher facet
(`teacher_prop = none`) and only picked up by the text-date last resort. -/
def dbNoTeacherSchema : FlexSchema :=
  { title_prop := "Name"
    status_prop := none
    status_labels := ⟨none, none, none⟩
    done_checkbox := none
    class_prop := none
    teacher_prop := none
    type_prop := none
    priority_prop := none
    due_date_prop_date := none
    due_date_prop_text := some "Teacher"
    tags_prop := none }

/-- Remote oracle for witnesses: the id lookup hits immediately. -/
def upsertRemoteIdHit : Remote :=
  ⟨QueryResult.ok [⟨"pg1"⟩], QueryResult.ok [], false, false, "new"⟩

/-- Remote oracle for witnesses: id lookup misses, fallback hits "pg2". -/
def upsertRemoteFallbackHit : Remote :=
  ⟨QueryResult.ok [], QueryResult.ok [⟨"pg2"⟩], false, false, "new"⟩

/-- Remote oracle for witnesses: id lookup misses, fallback hits "pg3". -/
def upsertRemoteFb2 : Remote :=
  ⟨QueryResult.ok [], QueryResult.ok [⟨"pg3"⟩], false, false, "new"⟩

/-- Remote oracle for witnesses: both lookups miss. -/
def upsertRemoteMiss : Remote :=
  ⟨QueryResult.ok [], QueryResult.ok [], false, false, "new"⟩

/-- A property payload whose date key carries the explicit null date. -/
def propsProbe : List (String × PropValue) :=
  [("Assignment Name", PropValue.title "Essay 1"), ("Due Date", PropValue.date none)]

/-- An undated record as sync.py builds one (`due_at` absent). -/
def undatedRecordProbe : SyncRecord :=
  { canvas_id := some 77
    name := some "Reading"
    class_ := some "History 101"
    teacher := some "J. Smith"
    assignment_type := some "Assignment"
    due_at := none
    status := some "Not started"
    priority := some "Later"
    html_url := none }

/-- A destination page whose title and due date match the probe record but
whose Class select differs. -/
def c1DestPage : Page := ⟨"pgC"⟩

/-- The destination row behind `c1DestPage`: title "Essay 1" and due date
2025-03-10 exactly as the source record, but Class "Math". -/
def c1DestProps : TargetRecordProps :=
  { title := "Essay 1"
    classSelect := some "Math"
    dueDateIso := some "2025-03-10"
    canvasId := none }

end CanvasNotionSync

namespace CanvasNotionSync

/-! ## Retry loop lemmas -/

theorem retryRun_count_lower {E A : Type} (f : Nat → Except E A) (b : ℚ) :
    ∀ (t : Nat) (d : ℚ) (c : Nat), c + 1 ≤ (retryRun f b t d c).2.1
  | 0, d, c => by simp [retryRun]
  | 1, d, c => by simp [retryRun]
  | t + 2, d, c => by
    simp only [retryRun]
    cases h : f c with
    | ok a => simp
    | error e =>
      have ih := retryRun_count_lower f b (t + 1) (d * b) (c + 1)
      simpa using Nat.le_trans (by omega) ih

theorem retryRun_count_upper {E A : Type} (f : Nat → Except E A) (b : ℚ) :
    ∀ (t : Nat) (d : ℚ) (c : Nat), (retryRun f b t d c).2.1 ≤ c + max t 1
  | 0, d, c => by simp [retryRun]
  | 1, d, c => by simp [retryRun]
  | t + 2, d, c => by
    simp only [retryRun]
    cases h : f c with
    | ok a => simp
    | error e =>
      have ih := retryRun_count_upper f b (t + 1) (d * b) (c + 1)
      have h1 : max (t + 1) 1 = t + 1 := Nat.max_eq_left (by omega)
      have h2 : max (t + 2) 1 = t + 2 := Nat.max_eq_left (by omega)
      rw [h1] at ih
      simpa [h2] using Nat.le_trans ih (by omega)

theorem retryRun_sleeps {E A : Type} (f : Nat → Except E A) (b : ℚ) :
    ∀ (t : Nat) (d : ℚ) (c : Nat),
      (retryRun f b t d c).2.2 =
        (List.range ((retryRun f b t d c).2.1 - (c + 1))).map (fun i => d * b ^ i)
  | 0, d, c => by simp [retryRun]
  | 1, d, c => by simp [retryRun]
  | t + 2, d, c => by
    simp only [retryRun]
    cases h : f c with
    | ok a => simp
    | error e =>
      have ih := retryRun_sleeps f b (t + 1) (d * b) (c + 1)
      have hlo := retryRun_count_lower f b (t + 1) (d * b) (c + 1)
      simp only []
      set r := retryRun f b (t + 1) (d * b) (c + 1) with hr
      have hm : r.2.1 - (c + 1) = (r.2.1 - (c + 2)) + 1 := by omega
      have hfun : ((fun i : Nat => d * b ^ i) ∘ Nat.succ) = (fun i : Nat => d * b * b ^ i) := by
        funext i
        show d * b ^ (i + 1) = d * b * b ^ i
        rw [pow_succ]
        ring
      rw [hm, List.range_succ_eq_map, List.map_cons, List.map_map, ih, hfun]
      simp

theorem retryRun_success {E A : Type} (f : Nat → Except E A) (b : ℚ) :
    ∀ (t : Nat) (d : ℚ) (c : Nat) (a : A) (k : Nat),
      c ≤ k → k < c + max t 1 →
      (∀ j, c ≤ j → j < k → (f j).isOk = false) →
      f k = Except.ok a →
      (retryRun f b t d c).1 = Except.ok a ∧ (retryRun f b t d c).2.1 = k + 1
  | 0, d, c, a, k, hck, hk, hfail, hok => by
    have : k = c := by omega
    subst this
    simp [retryRun, hok]
  | 1, d, c, a, k, hck, hk, hfail, hok => by
    have : k = c := by omega
    subst this
    simp [retryRun, hok]
  | t + 2, d, c, a, k, hck, hk, hfail, hok => by
    by_cases hkc : k = c
    · subst hkc
      simp [retryRun, hok]
    · have hlt : c < k := by omega
      have hfc : (f c).isOk = false := hfail c (Nat.le_refl c) hlt
      simp only [retryRun]
      cases h : f c with
      | ok a0 => rw [h] at hfc; simp [Except.isOk, Except.toBool] at hfc
      | error e =>
        have ih := retryRun_success f b (t + 1) (d * b) (c + 1) a k
          (by omega) (by omega) (fun j hj1 hj2 => hfail j (by omega) hj2) hok
        simpa using ih

theorem retryRun_allfail {E A : Type} (f : Nat → Except E A) (b : ℚ)
    (hf : ∀ j, (f j).isOk = false) :
    ∀ (t : Nat) (d : ℚ) (c : Nat),
      ((retryRun f b t d c).1).isOk = false ∧
        (retryRun f b t d c).2.1 = c + max t 1
  | 0, d, c => by simp [retryRun, hf c]
  | 1, d, c => by simp [retryRun, hf c]
  | t + 2, d, c => by
    simp only [retryRun]
    cases h : f c with
    | ok a => have := hf c; rw [h] at this; simp [Except.isOk, Except.toBool] at this
    | error e =>
      have ih := retryRun_allfail f b hf (t + 1) (d * b) (c + 1)
      refine ⟨by simpa using ih.1, ?_⟩
      have h2 := ih.2
      have h1 : max (t + 1) 1 = t + 1 := Nat.max_eq_left (by omega)
      have h3 : max (t + 2) 1 = t + 2 := Nat.max_eq_left (by omega)
      rw [h1] at h2
      simpa [h3] using by omega

/-! ## Characterisation lemmas for `calc_priority` -/

theorem calc_priority_some_eq (now t : ℚ) :
    calc_priority now (some t) =
      if t < now then "Overdue"
      else if t ≤ now + 2 * 86400 then "High"
      else if t ≤ now + 5 * 86400 then "Medium"
      else if t ≤ now + 7 * 86400 then "Low"
      else "Later" := by
  have h86 : (0 : ℚ) < 86400 := by norm_num
  have e1 : ((t - now) / 86400 < 0) ↔ t < now := by
    rw [div_lt_iff₀ h86]; constructor <;> intro h <;> linarith
  have e2 : ((t - now) / 86400 ≤ 2) ↔ t ≤ now + 2 * 86400 := by
    rw [div_le_iff₀ h86]; constructor <;> intro h <;> linarith
  have e3 : ((t - now) / 86400 ≤ 5) ↔ t ≤ now + 5 * 86400 := by
    rw [div_le_iff₀ h86]; constructor <;> intro h <;> linarith
  have e4 : ((t - now) / 86400 ≤ 7) ↔ t ≤ now + 7 * 86400 := by
    rw [div_le_iff₀ h86]; constructor <;> intro h <;> linarith
  simp only [calc_priority, days_until_val, e1, e2, e3, e4]

theorem urgencyRank_calc_priority (now t : ℚ) :
    urgencyRank (calc_priority now (some t)) =
      if t < now then 4
      else if t ≤ now + 2 * 86400 then 3
      else if t ≤ now + 5 * 86400 then 2
      else if t ≤ now + 7 * 86400 then 1
      else 0 := by
  rw [calc_priority_some_eq]
  split_ifs <;> simp [urgencyRank]

/-! ## Claim C10 -/

/-- C10: `calc_priority` is total and yields exactly one of the five labels
Overdue/High/Medium/Low/Later; a missing due date yields "Later"; a due date
strictly in the past yields "Overdue"; otherwise "High" within 2 days,
"Medium" within 5 days, "Low" within 7 days, and "Later" beyond — and the
urgency of the label is monotonically non-increasing as the due date moves
further into the future. -/
theorem calc_priority_total_and_monotone (now : ℚ) (due : Option ℚ) :
    calc_priority now due ∈ priorityLabels
    ∧ (due = none → calc_priority now due = "Later")
    ∧ (∀ t, due = some t → t < now → calc_priority now due = "Overdue")
    ∧ (∀ t, due = some t → now ≤ t → t ≤ now + 2 * 86400 →
        calc_priority now due = "High")
    ∧ (∀ t, due = some t → now + 2 * 86400 < t → t ≤ now + 5 * 86400 →
        calc_priority now due = "Medium")
    ∧ (∀ t, due = some t → now + 5 * 86400 < t → t ≤ now + 7 * 86400 →
        calc_priority now due = "Low")
    ∧ (∀ t, due = some t → now + 7 * 86400 < t → calc_priority now due = "Later")
    ∧ (∀ t1 t2 : ℚ, t1 ≤ t2 →
        urgencyRank (calc_priority now (some t2)) ≤
          urgencyRank (calc_priority now (some t1))) := by
  refine ⟨?_, ?_, ?_, ?_, ?_, ?_, ?_, ?_⟩
  · cases due with
    | none => simp [calc_priority, priorityLabels]
    | some t =>
      rw [calc_priority_some_eq]
      split_ifs <;> simp [priorityLabels]
  · rintro rfl
    rfl
  · rintro t rfl h
    rw [calc_priority_some_eq]
    split_ifs <;> first | rfl | (exfalso; linarith)
  · rintro t rfl h1 h2
    rw [calc_priority_some_eq]
    split_ifs <;> first | rfl | (exfalso; linarith)
  · rintro t rfl h1 h2
    rw [calc_priority_some_eq]
    split_ifs <;> first | rfl | (exfalso; linarith)
  · rintro t rfl h1 h2
    rw [calc_priority_some_eq]
    split_ifs <;> first | rfl | (exfalso; linarith)
  · rintro t rfl h
    rw [calc_priority_some_eq]
    split_ifs <;> first | rfl | (exfalso; linarith)
  · intro t1 t2 h
    rw [urgencyRank_calc_priority, urgencyRank_calc_priority]
    split_ifs <;> first | omega | (exfalso; linarith)

/-- Witness for C10: a due date one day in the past is Overdue, a missing
due date is Later. -/
theorem calc_priority_total_and_monotone_witness :
    calc_priority 0 (some (-86400)) = "Overdue" ∧ calc_priority 0 none = "Later" :=
  ⟨(calc_priority_total_and_monotone 0 (some (-86400))).2.2.1 (-86400) rfl (by norm_num),
   (calc_priority_total_and_monotone 0 none).2.1 rfl⟩

/-! ## Claim C6 -/

/-- C6: the sync driver skips — neither maps nor upserts — every record whose
due date lies outside `[now − 30 days, now + 180 days]`, processes records
inside the window, and treats every record with no due date by the single
consistent rule "always included", independent of the record's other data. -/
theorem sync_window_filter (now : ℚ) (cn tn : String) (a : RawAssignment) :
    (∀ d, a.due_at = some d → (d < now - 30 * 86400 ∨ now + 180 * 86400 < d) →
        processAssignment now cn tn a = none)
    ∧ (∀ d, a.due_at = some d → now - 30 * 86400 ≤ d → d ≤ now + 180 * 86400 →
        (processAssignment now cn tn a).isSome = true)
    ∧ (a.due_at = none → (processAssignment now cn tn a).isSome = true)
    ∧ (∀ (a' : RawAssignment) (cn' tn' : String), a.due_at = a'.due_at →
        (processAssignment now cn tn a).isSome =
          (processAssignment now cn' tn' a').isSome) := by
  refine ⟨?_, ?_, ?_, ?_⟩
  · intro d hd hout
    have hns : ¬(now - 30 * 86400 ≤ d ∧ d ≤ now + 180 * 86400) := by
      rintro ⟨h1, h2⟩
      rcases hout with h | h <;> linarith
    have hw : windowSkip now a.due_at = true := by
      rw [hd]
      show (!(decide (now - 30 * 86400 ≤ d ∧ d ≤ now + 180 * 86400))) = true
      rw [decide_eq_false hns]
      rfl
    simp [processAssignment, hw]
  · intro d hd h1 h2
    simp [processAssignment, windowSkip, hd, h1, h2]
  · intro h
    simp [processAssignment, windowSkip, h]
  · intro a' cn' tn' he
    simp only [processAssignment, ← he]
    cases windowSkip now a.due_at <;> simp

/-- Witness for C6: an assignment due ~231 days out is skipped; an undated
assignment is processed. -/
theorem sync_window_filter_witness :
    processAssignment 0 "C" "T" rawA0 = none
    ∧ (processAssignment 0 "C" "T" rawA1).isSome = true :=
  ⟨(sync_window_filter 0 "C" "T" rawA0).1 20000000 rfl (Or.inr (by norm_num)),
   (sync_window_filter 0 "C" "T" rawA1).2.2.1 rfl⟩

/-! ## Claim C8 -/

/-- C8: a call wrapped by `retry` is retried on matching transient errors
with blocking exponential backoff — the `i`-th sleep is `delay * backoff^i` —
up to a ceiling of `tries` total invocations; the first success within the
ceiling is returned, and once the ceiling is exhausted the last failure
propagates. -/
theorem retry_backoff_spec {E A : Type} (f : Nat → Except E A) (tries : Nat)
    (delay backoff : ℚ) (htries : 1 ≤ tries) : RetrySpec f tries delay backoff := by
  unfold RetrySpec retry
  have hmax : max tries 1 = tries := Nat.max_eq_left htries
  refine ⟨?_, ?_, ?_, ?_⟩
  · have h := retryRun_count_upper f backoff tries delay 0
    simpa [hmax] using h
  · have h := retryRun_sleeps f backoff tries delay 0
    simpa using h
  · intro a k hk hfail hok
    have h := retryRun_success f backoff tries delay 0 a k (Nat.zero_le k)
      (by omega) (fun j _ hj => hfail j hj) hok
    simpa using h
  · intro hall
    have h := retryRun_allfail f backoff hall tries delay 0
    simpa [hmax] using h

/-- Witness for C8: with `tries=3`, a call failing twice then succeeding
satisfies the retry contract and indeed returns the success. -/
theorem retry_backoff_spec_witness :
    (1 ≤ 3 ∧ RetrySpec retryProbe 3 1 2) ∧ (retry retryProbe 3 1 2).1 = Except.ok 7 :=
  ⟨⟨by norm_num, retry_backoff_spec retryProbe 3 1 2 (by norm_num)⟩, rfl⟩

/-! ## Claim C9 -/

/-- C9 counterexample: the claim says the title text is truncated to the
destination's maximum field length (2000 characters for Notion text
content), but sync.py `make_title` applies no truncation at all: a
2001-character name is passed through whole. -/
theorem make_title_no_truncation_counterexample :
    ¬ ((orUntitled (some longTitleProbe)).length ≤ 2000) := by
  have hdata : longTitleProbe.data = List.replicate 2001 'a' := rfl
  have hlen : longTitleProbe.length = 2001 := by
    show longTitleProbe.data.length = 2001
    rw [hdata, List.length_replicate]
  have hne : longTitleProbe = "" → False := by
    intro h
    have h2 : longTitleProbe.length = ("" : String).length := congrArg String.length h
    rw [hlen, show ("" : String).length = 0 from rfl] at h2
    omega
  have heq : orUntitled (some longTitleProbe) = longTitleProbe := by
    show (if longTitleProbe = "" then "(untitled)" else longTitleProbe) = longTitleProbe
    rw [if_neg]
    intro h
    exact hne h
  rw [heq]
  omega

/-- C9 (amended): the title text in the built payload is wrapped and is never
empty — an empty or missing name is replaced by the placeholder
"(untitled)" — but the text is not truncated: a non-empty name is passed
through unchanged, whatever its length. -/
theorem make_title_never_empty (name : Option String) :
    orUntitled name ≠ ""
    ∧ make_title name = PropValue.title (orUntitled name)
    ∧ (∀ s, name = some s → s ≠ "" → orUntitled name = s)
    ∧ ((name = none ∨ name = some "") → orUntitled name = "(untitled)") := by
  refine ⟨?_, rfl, ?_, ?_⟩
  · cases name with
    | none => simp [orUntitled]
    | some s =>
      by_cases h : s = "" <;> simp [orUntitled, h]
  · rintro s rfl hs
    simp [orUntitled, hs]
  · rintro (rfl | rfl) <;> simp [orUntitled]

/-- Witness for C9: a non-empty name passes through unchanged, and a missing
name gets the placeholder. -/
theorem make_title_never_empty_witness :
    orUntitled (some "Essay") = "Essay" ∧ orUntitled none = "(untitled)" :=
  ⟨(make_title_never_empty (some "Essay")).2.2.1 "Essay" rfl (by decide),
   (make_title_never_empty none).2.2.2 (Or.inl rfl)⟩

/-! ## Option-management lemmas -/

theorem find_applyUpdate (pn : String) (newOpts : List SelectOption) :
    ∀ (l : List (String × NotionProp)) (prop : NotionProp),
      (l.find? (fun np => decide (np.1 = pn))).map (·.2) = some prop →
      ((l.map (fun np =>
          if np.1 = pn then (np.1, { np.2 with options := newOpts }) else np)).find?
        (fun np => decide (np.1 = pn))).map (·.2) =
        some { prop with options := newOpts }
  | [], prop => by simp
  | hd :: tl, prop => by
    intro hg
    by_cases hh : hd.1 = pn
    · rw [List.find?_cons_of_pos _ (by simpa using hh)] at hg
      simp only [Option.map_some', Option.some.injEq] at hg
      simp only [List.map_cons, if_pos hh]
      rw [List.find?_cons_of_pos _ (by simpa using hh)]
      simp [hg]
    · rw [List.find?_cons_of_neg _ (by simpa using hh)] at hg
      simp only [List.map_cons, if_neg hh]
      rw [List.find?_cons_of_neg _ (by simpa using hh)]
      exact find_applyUpdate pn newOpts tl prop hg

theorem getProp_applyOptionsUpdate (db : NotionDb) (pn : String) (prop : NotionProp)
    (newOpts : List SelectOption) (hg : getProp db pn = some prop) :
    getProp (applyOptionsUpdate db pn newOpts) pn =
      some { prop with options := newOpts } := by
  rcases db with ⟨props⟩
  exact find_applyUpdate pn newOpts props prop hg

/-! ## Claim C3 -/

/-- C3 counterexample: with every wanted name ("High") already among the
property's options, sync.py `ensure_select_options` still issues a schema
update call — carrying the unchanged option list — where the claim requires
zero remote schema-update calls (and hence two calls for two invocations,
not at most one). -/
theorem ensure_select_options_writes_counterexample :
    ensure_select_options dbPriorityHigh "Priority" [("High", "red")] =
      some (NotionPropType.select, [⟨"High", some "orange"⟩]) := by decide

/-- C3 (amended): notion_api.py `_ensure_select_options_for` satisfies the
claimed idempotence — zero update calls when every (truthy) wanted name
already exists, and a second call right after a first call's update is a
no-op — whereas sync.py `ensure_select_options` issues exactly one update
call on every invocation in which the property exists with select or
multi-select kind, even when nothing is missing, though the option list it
then sends is exactly the existing one. -/
theorem ensure_options_idempotence_amended :
    (∀ (db : NotionDb) (pn : String) (want : List String) (kind : NotionPropType)
        (prop : NotionProp), getProp db pn = some prop →
        (∀ n ∈ want, n ≠ "" → n ∈ prop.options.map SelectOption.name) →
        ensure_select_options_for db pn want kind = none)
    ∧ (∀ (db : NotionDb) (pn : String) (want : List String) (kind : NotionPropType)
        (newOpts : List SelectOption),
        ensure_select_options_for db pn want kind = some newOpts →
        ensure_select_options_for (applyOptionsUpdate db pn newOpts) pn want kind = none)
    ∧ (∀ (db : NotionDb) (pn : String) (want : List (String × String)) (prop : NotionProp),
        getProp db pn = some prop →
        (prop.type = NotionPropType.select ∨ prop.type = NotionPropType.multiSelect) →
        (ensure_select_options db pn want).isSome = true
        ∧ ((∀ nc ∈ want, nc.1 ∈ prop.options.map SelectOption.name) →
            (ensure_select_options db pn want =
              some (NotionPropType.select, prop.options) ∨
             ensure_select_options db pn want =
              some (NotionPropType.multiSelect, prop.options)))) := by
  have key : ∀ (db : NotionDb) (pn : String) (want : List String) (kind : NotionPropType)
      (prop : NotionProp), getProp db pn = some prop →
      (∀ n ∈ want, n ≠ "" → n ∈ prop.options.map SelectOption.name) →
      ensure_select_options_for db pn want kind = none := by
    intro db pn want kind prop hg hall
    simp [ensure_select_options_for, hg]
    intro _ x hx hxe
    simpa [List.mem_map] using hall x hx hxe
  have names_complete : ∀ (db : NotionDb) (pn : String) (want : List String)
      (kind : NotionPropType) (newOpts : List SelectOption),
      ensure_select_options_for db pn want kind = some newOpts →
      ∀ n ∈ want, n ≠ "" → n ∈ newOpts.map SelectOption.name := by
    intro db pn want kind newOpts h n hn hne
    cases hg : getProp db pn with
    | none => simp [ensure_select_options_for, hg] at h
    | some prop =>
      by_cases hk : prop.type = kind
      · simp [ensure_select_options_for, hg, hk] at h
        obtain ⟨-, heq⟩ := h
        rw [List.mem_map]
        by_cases hold : ∃ o ∈ prop.options, o.name = n
        · obtain ⟨o, ho, hon⟩ := hold
          exact ⟨o, by rw [← heq]; exact List.mem_append_left _ ho, hon⟩
        · refine ⟨⟨n, none⟩, ?_, rfl⟩
          rw [← heq]
          refine List.mem_append_right _ ?_
          apply List.mem_map_of_mem
          rw [List.mem_filter]
          exact ⟨hn, by simp [hne, hold]⟩
      · simp [ensure_select_options_for, hg, hk] at h
  refine ⟨key, ?_, ?_⟩
  · intro db pn want kind newOpts h
    cases hg : getProp db pn with
    | none => simp [ensure_select_options_for, hg] at h
    | some prop =>
      have hg2 := getProp_applyOptionsUpdate db pn prop newOpts hg
      exact key _ pn want kind _ hg2 (names_complete db pn want kind newOpts h)
  · intro db pn want prop hg hk
    rcases hk with hsel | hmul
    · constructor
      · simp [ensure_select_options, hg, hsel]
      · intro hall
        left
        simp [ensure_select_options, hg, hsel]
        intro a b hab
        simpa [List.mem_map] using hall (a, b) hab
    · constructor
      · simp [ensure_select_options, hg, hmul]
      · intro hall
        right
        simp [ensure_select_options, hg, hmul]
        intro a b hab
        simpa [List.mem_map] using hall (a, b) hab

/-- Witness for C3 (amended): on the concrete database, the notion_api
variant issues no call when "High" already exists, while the sync.py variant
does issue one. -/
theorem ensure_options_idempotence_amended_witness :
    ensure_select_options_for dbPriorityHigh "Priority" ["High"] NotionPropType.select = none
    ∧ (ensure_select_options dbPriorityHigh "Priority" [("High", "red")]).isSome = true :=
  ⟨ensure_options_idempotence_amended.1 dbPriorityHigh "Priority" ["High"]
      NotionPropType.select ⟨NotionPropType.select, [⟨"High", some "orange"⟩]⟩ rfl
      (by
        intro n hn hne
        rw [List.mem_singleton] at hn
        subst hn
        decide),
   (ensure_options_idempotence_amended.2.2 dbPriorityHigh "Priority" [("High", "red")]
      ⟨NotionPropType.select, [⟨"High", some "orange"⟩]⟩ rfl (Or.inl rfl)).1⟩

/-! ## Claim C5 -/

/-- C5: the option list sent in any schema update issued by either
option-management function extends the property's existing option list (the
existing options form an unchanged prefix, so no option is removed or
renamed and every existing option is still present): schema evolution is
strictly additive. -/
theorem ensure_options_additive (db : NotionDb) (pn : String) (prop : NotionProp)
    (hg : getProp db pn = some prop) :
    (∀ want k merged, ensure_select_options db pn want = some (k, merged) →
        (∃ t, merged = prop.options ++ t) ∧ ∀ o ∈ prop.options, o ∈ merged)
    ∧ (∀ want kind newOpts, ensure_select_options_for db pn want kind = some newOpts →
        (∃ t, newOpts = prop.options ++ t) ∧ ∀ o ∈ prop.options, o ∈ newOpts) := by
  constructor
  · intro want k merged h
    have hshape : ∃ t, merged = prop.options ++ t := by
      cases htype : prop.type with
      | select =>
        simp [ensure_select_options, hg, htype, Prod.mk.injEq] at h
        exact ⟨_, h.2.symm⟩
      | multiSelect =>
        simp [ensure_select_options, hg, htype, Prod.mk.injEq] at h
        exact ⟨_, h.2.symm⟩
      | title => simp [ensure_select_options, hg, htype] at h
      | status => simp [ensure_select_options, hg, htype] at h
      | checkbox => simp [ensure_select_options, hg, htype] at h
      | richText => simp [ensure_select_options, hg, htype] at h
      | date => simp [ensure_select_options, hg, htype] at h
      | number => simp [ensure_select_options, hg, htype] at h
      | url => simp [ensure_select_options, hg, htype] at h
      | other => simp [ensure_select_options, hg, htype] at h
    refine ⟨hshape, ?_⟩
    rcases hshape with ⟨t, rfl⟩
    intro o ho
    exact List.mem_append_left t ho
  · intro want kind newOpts h
    have hshape : ∃ t, newOpts = prop.options ++ t := by
      by_cases hk : prop.type = kind
      · simp [ensure_select_options_for, hg, hk] at h
        exact ⟨_, h.2.symm⟩
      · simp [ensure_select_options_for, hg, hk] at h
    refine ⟨hshape, ?_⟩
    rcases hshape with ⟨t, rfl⟩
    intro o ho
    exact List.mem_append_left t ho

/-- Witness for C5: the pre-existing "High" option is still present in the
merged option list sent when adding "Low". -/
theorem ensure_options_additive_witness :
    SelectOption.mk "High" (some "orange") ∈
      [SelectOption.mk "High" (some "orange"), SelectOption.mk "Low" (some "green")] :=
  ((ensure_options_additive dbPriorityHigh "Priority"
      ⟨NotionPropType.select, [⟨"High", some "orange"⟩]⟩ rfl).1
    [("Low", "green")] NotionPropType.select
    [⟨"High", some "orange"⟩, ⟨"Low", some "green"⟩] (by decide)).2
    ⟨"High", some "orange"⟩ (by decide)

/-! ## Claim C4 -/

/-- C4 counterexample: the claim says that given a schema lacking a Teacher
field, `build_props` returns a payload with no "Teacher" key — but
`build_props` takes no schema argument at all, and for a record carrying a
teacher its payload contains a "Teacher" key whatever the target schema is. -/
theorem build_props_teacher_counterexample :
    "Teacher" ∈ (build_props teacherRecordProbe).map Prod.fst := by decide

/-- C4 (amended): sync.py `build_props` consults no schema — it emits a
"Teacher" key exactly when the record's teacher is present (and it never
raises, being total); the schema presence-and-type check lives instead in
notion_api.py `get_flexible_schema`, which maps a database without a
multi-select Teacher property to `teacher_prop = none` without raising
(provided a title property exists). -/
theorem build_props_schema_amended :
    (∀ r : SyncRecord, ("Teacher" ∈ (build_props r).map Prod.fst ↔ r.teacher ≠ none))
    ∧ (∀ db : NotionDb,
        (∀ p, getProp db "Teacher" = some p → p.type ≠ NotionPropType.multiSelect) →
        ∀ s, get_flexible_schema db = Except.ok s → s.teacher_prop = none)
    ∧ (∀ db : NotionDb, first_title_prop db ≠ none →
        ∃ s, get_flexible_schema db = Except.ok s) := by
  refine ⟨?_, ?_, ?_⟩
  · intro r
    rcases r with ⟨cid, nm, cls, tch, ty, due, st, pr, hu⟩
    cases cls <;> cases tch <;> cases cid <;> simp [build_props]
  · intro db hT s hs
    have hteacher : prop_if_type db "Teacher" [NotionPropType.multiSelect] = none := by
      unfold prop_if_type
      cases hg : getProp db "Teacher" with
      | none => rfl
      | some p =>
        have := hT p hg
        simp [this]
    cases h1 : first_title_prop db with
    | none =>
      rw [get_flexible_schema, h1] at hs
      cases hs
    | some tp =>
      rw [get_flexible_schema, h1] at hs
      cases hs
      simpa using hteacher
  · intro db h
    cases h1 : first_title_prop db with
    | none => exact absurd h1 h
    | some tp => exact ⟨_, by rw [get_flexible_schema, h1]⟩

/-- Witness for C4 (amended): the teacher-carrying record yields a payload
with a "Teacher" key, while `get_flexible_schema` on a database whose
Teacher property is rich-text yields `teacher_prop = none` without raising. -/
theorem build_props_schema_amended_witness :
    ("Teacher" ∈ (build_props teacherRecordProbe).map Prod.fst ↔
      teacherRecordProbe.teacher ≠ none)
    ∧ dbNoTeacherSchema.teacher_prop = none :=
  ⟨build_props_schema_amended.1 teacherRecordProbe,
   build_props_schema_amended.2.1 dbNoTeacher
     (by
       intro p hp
       rw [show getProp dbNoTeacher "Teacher" =
         some ⟨NotionPropType.richText, []⟩ from rfl] at hp
       cases hp
       decide)
     dbNoTeacherSchema rfl⟩

/-! ## Claim C7 -/

/-- C7 counterexample: the lookup request sync.py `notion_query_by_unique`
builds for Canvas ID 5 carries no `page_size` bound at all — the
destination's default page size (100) applies — contradicting the claim that
every identity-resolution lookup call requests at most 3 matches. -/
theorem notion_query_no_page_limit_counterexample :
    notion_query_by_unique_request (some 5) none none none =
      some { filter := QFilter.conj [QFilter.numberEq "Canvas ID" (some 5)]
             page_size := none } := rfl

/-- C7 (amended): the notion_api.py lookups `query_by_canvas_id` and
`query_by_title_and_date` request at most 3 matches (`page_size = 3`), but
sync.py `notion_query_by_unique` sets no page-size bound (the destination
default applies); on every path the engine deterministically picks the first
candidate in the destination's returned order. -/
theorem lookup_pick_first_amended :
    (∀ cid, (query_by_canvas_id_request cid).page_size = some 3)
    ∧ (∀ tp dpd dpt tt iso mdy,
        (query_by_title_and_date_request tp dpd dpt tt iso mdy).page_size = some 3)
    ∧ (∀ cid nm cn dd req, notion_query_by_unique_request cid nm cn dd = some req →
        req.page_size = none)
    ∧ (∀ (p : Page) (rest : List Page) (props : List (String × PropValue)),
        sync_upsert_step (p :: rest) props = Call.updatePage p.id props)
    ∧ (∀ (remote : Remote) (cid : Option Int) (props : List (String × PropValue))
        (tp tt d1 d2 d3 d4 : Option String) (p : Page) (rest : List Page),
        remote.byCanvasId = QueryResult.ok (p :: rest) → remote.updateRaises = false →
        (upsert_page remote cid props tp tt d1 d2 d3 d4).1 =
          Except.ok (p.id, "updated")) := by
  refine ⟨fun cid => rfl, fun tp dpd dpt tt iso mdy => rfl, ?_, fun p rest props => rfl, ?_⟩
  · intro cid nm cn dd req h
    unfold notion_query_by_unique_request at h
    cases hfs : notion_query_by_unique_filters cid nm cn dd with
    | nil => rw [hfs] at h; cases h
    | cons a as => rw [hfs] at h; cases h; rfl
  · intro remote cid props tp tt d1 d2 d3 d4 p rest h1 h2
    simp [upsert_page, h1, h2]

/-- Witness for C7 (amended): the Canvas-ID lookup request carries
`page_size = 3`, and an id-lookup hit updates the first returned page. -/
theorem lookup_pick_first_amended_witness :
    (query_by_canvas_id_request (some 5)).page_size = some 3
    ∧ (upsert_page upsertRemoteIdHit none [] none none none none none none).1 =
        Except.ok ("pg1", "updated") :=
  ⟨lookup_pick_first_amended.1 (some 5),
   lookup_pick_first_amended.2.2.2.2 upsertRemoteIdHit none [] none none none none
     none none ⟨"pg1"⟩ [] rfl rfl⟩

/-! ## Association-list and date-normalisation lemmas -/

theorem assoc_val_unique {β : Type} :
    ∀ (l : List (String × β)) (k : String) (a b : β),
      (l.map Prod.fst).Nodup → (k, a) ∈ l → (k, b) ∈ l → a = b
  | [], k, a, b => by
    intro _ ha _
    simp at ha
  | hd :: tl, k, a, b => by
    intro hnd ha hb
    simp only [List.map_cons, List.nodup_cons] at hnd
    rcases List.mem_cons.mp ha with ha0 | ha'
    · rcases List.mem_cons.mp hb with hb0 | hb'
      · rw [← ha0] at hb0
        exact (congrArg Prod.snd hb0).symm
      · exfalso
        apply hnd.1
        rw [← ha0]
        show k ∈ List.map Prod.fst tl
        exact List.mem_map_of_mem Prod.fst hb'
    · rcases List.mem_cons.mp hb with hb0 | hb'
      · exfalso
        apply hnd.1
        rw [← hb0]
        show k ∈ List.map Prod.fst tl
        exact List.mem_map_of_mem Prod.fst ha'
      · exact assoc_val_unique tl k a b hnd.2 ha' hb'

theorem normalize_date_for_update_mem (props : List (String × PropValue)) (k : String)
    (hk : (k, PropValue.date none) ∈ props) :
    (k, PropValue.date none) ∈ normalize_date_for_update props := by
  unfold normalize_date_for_update
  have h := List.mem_map_of_mem
    (fun kv : String × PropValue =>
      if is_null_date kv.2 then (kv.1, PropValue.date none) else kv) hk
  simpa [is_null_date] using h

theorem normalize_date_for_update_keys (props : List (String × PropValue)) :
    (normalize_date_for_update props).map Prod.fst = props.map Prod.fst := by
  unfold normalize_date_for_update
  rw [List.map_map]
  apply List.map_congr_left
  intro kv _
  by_cases h : is_null_date kv.2 <;> simp [h]

theorem drop_null_dates_for_create_not_mem (props : List (String × PropValue))
    (k : String) (hnd : (props.map Prod.fst).Nodup)
    (hk : (k, PropValue.date none) ∈ props) :
    k ∉ (drop_null_dates_for_create props).map Prod.fst := by
  intro hmem
  rw [List.mem_map] at hmem
  obtain ⟨kv, hkv, hfst⟩ := hmem
  unfold drop_null_dates_for_create at hkv
  rw [List.mem_filter] at hkv
  obtain ⟨hin, hpred⟩ := hkv
  have hkv2 : (k, kv.2) ∈ props := by
    have hkve : kv = (k, kv.2) := by
      rw [← hfst]
    rw [← hkve]
    exact hin
  have hveq : kv.2 = PropValue.date none := assoc_val_unique props k kv.2
    (PropValue.date none) hnd hkv2 hk
  rw [hveq] at hpred
  simp [is_null_date] at hpred

/-- The payloads of all mutating calls `upsert_page` can issue: every update
call carries `_normalize_date_for_update props`, and every create call
carries `_drop_null_dates_for_create` of either the original `props` or (on
the fallback-update-failure path) of the already-normalized `props`. -/
theorem upsert_payload_shapes (remote : Remote) (cid : Option Int)
    (props : List (String × PropValue)) (tp tt d1 d2 d3 d4 : Option String) :
    (∀ ps ∈ createsOf (upsert_page remote cid props tp tt d1 d2 d3 d4).2,
        ps = drop_null_dates_for_create props ∨
        ps = drop_null_dates_for_create (normalize_date_for_update props))
    ∧ (∀ pid ps,
        Call.updatePage pid ps ∈ (upsert_page remote cid props tp tt d1 d2 d3 d4).2 →
        ps = normalize_date_for_update props) := by
  cases hqbc : remote.byCanvasId with
  | apiError =>
    constructor
    · intro ps hps
      simp [upsert_page, hqbc, createsOf] at hps
    · intro pid ps h
      simp [upsert_page, hqbc] at h
  | ok results =>
    cases results with
    | cons p rest =>
      by_cases hup : remote.updateRaises
      · constructor
        · intro ps hps
          simp [upsert_page, hqbc, hup, createsOf] at hps
        · intro pid ps h
          simp [upsert_page, hqbc, hup] at h
          exact h.2
      · constructor
        · intro ps hps
          simp [upsert_page, hqbc, hup, createsOf] at hps
        · intro pid ps h
          simp [upsert_page, hqbc, hup] at h
          exact h.2
    | nil =>
      by_cases htt : (truthyStr tp && truthyStr tt) = true
      · cases hfb : remote.byTitleDate with
        | ok fbres =>
          cases fbres with
          | cons q qrest =>
            by_cases hup : remote.updateRaises
            · by_cases hcr : remote.createRaises
              · constructor
                · intro ps hps
                  simp [upsert_page, hqbc, htt, hfb, hup, hcr, createsOf] at hps
                  exact Or.inr hps
                · intro pid ps h
                  simp [upsert_page, hqbc, htt, hfb, hup, hcr] at h
                  exact h.2
              · constructor
                · intro ps hps
                  simp [upsert_page, hqbc, htt, hfb, hup, hcr, createsOf] at hps
                  exact Or.inr hps
                · intro pid ps h
                  simp [upsert_page, hqbc, htt, hfb, hup, hcr] at h
                  exact h.2
            · constructor
              · intro ps hps
                simp [upsert_page, hqbc, htt, hfb, hup, createsOf] at hps
              · intro pid ps h
                simp [upsert_page, hqbc, htt, hfb, hup] at h
                exact h.2
          | nil =>
            by_cases hcr : remote.createRaises
            · constructor
              · intro ps hps
                simp [upsert_page, hqbc, htt, hfb, hcr, createsOf] at hps
                exact Or.inl hps
              · intro pid ps h
                simp [upsert_page, hqbc, htt, hfb, hcr] at h
            · constructor
              · intro ps hps
                simp [upsert_page, hqbc, htt, hfb, hcr, createsOf] at hps
                exact Or.inl hps
              · intro pid ps h
                simp [upsert_page, hqbc, htt, hfb, hcr] at h
        | apiError =>
          by_cases hcr : remote.createRaises
          · constructor
            · intro ps hps
              simp [upsert_page, hqbc, htt, hfb, hcr, createsOf] at hps
              exact Or.inl hps
            · intro pid ps h
              simp [upsert_page, hqbc, htt, hfb, hcr] at h
          · constructor
            · intro ps hps
              simp [upsert_page, hqbc, htt, hfb, hcr, createsOf] at hps
              exact Or.inl hps
            · intro pid ps h
              simp [upsert_page, hqbc, htt, hfb, hcr] at h
      · by_cases hcr : remote.createRaises
        · constructor
          · intro ps hps
            simp [upsert_page, hqbc, htt, hcr, createsOf] at hps
            exact Or.inl hps
          · intro pid ps h
            simp [upsert_page, hqbc, htt, hcr] at h
        · constructor
          · intro ps hps
            simp [upsert_page, hqbc, htt, hcr, createsOf] at hps
            exact Or.inl hps
          · intro pid ps h
            simp [upsert_page, hqbc, htt, hcr] at h

/-! ## Claim C1 -/

/-- C1 counterexample: the claim says that for a record with `source_id=None`
and a destination containing a record whose title and due date exactly match,
the engine updates that record and performs no create, with the fallback
lookup attempted only after a confirmed miss of the lookup-by-identifier.
On the cited sync.py variant this fails at this concrete input: for the
record ("Essay 1", Class "History 101", due 2025-03-10) with
`canvas_id=None`, the single lookup `notion_query_by_unique` builds — with no
preceding lookup-by-identifier — conjoins a Class-equality filter, so the
destination record with exactly matching title and due date but Class "Math"
is not returned, and sync.py line 411 issues a create call. -/
theorem sync_fallback_class_counterexample :
    c1DestProps.title = "Essay 1"
    ∧ c1DestProps.dueDateIso = some "2025-03-10"
    ∧ notion_query_by_unique_filters none (some "Essay 1") (some "History 101")
        (some "2025-03-10") =
        [QFilter.titleEq "Assignment Name" "Essay 1",
         QFilter.selectEq "Class" "History 101",
         QFilter.dateEq "Due Date" "2025-03-10"]
    ∧ hasIdFilter (notion_query_by_unique_filters none (some "Essay 1")
        (some "History 101") (some "2025-03-10")) = false
    ∧ queryEval [(c1DestPage, c1DestProps)]
        (QFilter.conj (notion_query_by_unique_filters none (some "Essay 1")
          (some "History 101") (some "2025-03-10"))) = []
    ∧ sync_upsert_step (queryEval [(c1DestPage, c1DestProps)]
        (QFilter.conj (notion_query_by_unique_filters none (some "Essay 1")
          (some "History 101") (some "2025-03-10")))) propsProbe =
        Call.createPage propsProbe :=
  ⟨rfl, rfl, rfl, rfl, rfl, rfl⟩

/-- C1 (amended): in notion_api.py `upsert_page`, when the identifier lookup
(including for a record whose `source_id` is None, passed through unchanged)
confirms a miss and the fallback query finds a record whose title and due
date match, the engine issues exactly one update call — addressed to that
record — and no create call; the fallback title+date lookup appears in a
trace only after a confirmed id-lookup miss, and an id-lookup error aborts
the record with no fallback lookup and no mutating call.  The sync.py
variant diverges: with `canvas_id=None` its single lookup contains no
identifier filter at all (so no id lookup precedes the fallback), and it
conjoins Class equality with title and date, so a destination whose every
row has a different Class — even one matching title and due date exactly —
yields no result and the record is created, not updated. -/
theorem upsert_fallback_correct (remote : Remote) (cid : Option Int)
    (props : List (String × PropValue)) (tp tt d1 d2 d3 d4 : Option String) :
    (∀ (p : Page) (rest : List Page),
        remote.byCanvasId = QueryResult.ok [] →
        remote.byTitleDate = QueryResult.ok (p :: rest) →
        truthyStr tp = true → truthyStr tt = true → remote.updateRaises = false →
        updatesOf (upsert_page remote cid props tp tt d1 d2 d3 d4).2 = [p.id]
        ∧ createsOf (upsert_page remote cid props tp tt d1 d2 d3 d4).2 = []
        ∧ (upsert_page remote cid props tp tt d1 d2 d3 d4).1 =
            Except.ok (p.id, "updated"))
    ∧ (fallbackLookupCount (upsert_page remote cid props tp tt d1 d2 d3 d4).2 ≠ 0 →
        remote.byCanvasId = QueryResult.ok [])
    ∧ (remote.byCanvasId = QueryResult.apiError →
        fallbackLookupCount (upsert_page remote cid props tp tt d1 d2 d3 d4).2 = 0
        ∧ updatesOf (upsert_page remote cid props tp tt d1 d2 d3 d4).2 = []
        ∧ createsOf (upsert_page remote cid props tp tt d1 d2 d3 d4).2 = []
        ∧ (upsert_page remote cid props tp tt d1 d2 d3 d4).1 =
            Except.error UpsertError.apiError)
    ∧ (∀ nm cn dd : Option String,
        hasIdFilter (notion_query_by_unique_filters none nm cn dd) = false)
    ∧ (∀ (pages : List (Page × TargetRecordProps)) (nm cn dd : String),
        nm ≠ "" → cn ≠ "" →
        (∀ pr ∈ pages, pr.2.classSelect ≠ some cn) →
        queryEval pages (QFilter.conj
          (notion_query_by_unique_filters none (some nm) (some cn) (some dd))) = []
        ∧ ∀ ps : List (String × PropValue),
            sync_upsert_step (queryEval pages (QFilter.conj
              (notion_query_by_unique_filters none (some nm) (some cn) (some dd)))) ps =
            Call.createPage ps) := by
  refine ⟨?_, ?_, ?_, ?_, ?_⟩
  · intro p rest h1 h2 h3 h4 h5
    have htt : (truthyStr tp && truthyStr tt) = true := by rw [h3, h4]; rfl
    refine ⟨?_, ?_, ?_⟩ <;>
      simp [upsert_page, h1, h2, htt, h5, updatesOf, createsOf]
  · intro hcount
    cases hq : remote.byCanvasId with
    | apiError => simp [upsert_page, hq, fallbackLookupCount] at hcount
    | ok results =>
      cases results with
      | nil => rfl
      | cons p rest =>
        by_cases hu : remote.updateRaises <;>
          simp [upsert_page, hq, hu, fallbackLookupCount] at hcount
  · intro h
    refine ⟨?_, ?_, ?_, ?_⟩ <;>
      simp [upsert_page, h, fallbackLookupCount, updatesOf, createsOf]
  · intro nm cn dd
    cases dd <;> by_cases h1 : truthyStr nm = true <;> by_cases h2 : truthyStr cn = true <;>
      simp [notion_query_by_unique_filters, hasIdFilter, h1, h2]
  · intro pages nm cn dd hnm hcn hcls
    have hfil : notion_query_by_unique_filters none (some nm) (some cn) (some dd) =
        [QFilter.titleEq "Assignment Name" nm, QFilter.selectEq "Class" cn,
         QFilter.dateEq "Due Date" dd] := by
      simp [notion_query_by_unique_filters, truthyStr, hnm, hcn]
    have hempty : queryEval pages (QFilter.conj
        (notion_query_by_unique_filters none (some nm) (some cn) (some dd))) = [] := by
      rw [hfil]
      unfold queryEval
      rw [List.map_eq_nil_iff, List.filter_eq_nil_iff]
      intro pr hpr
      have hne := hcls pr hpr
      simp [qfilterMatches, qfiltersAll, hne]
    exact ⟨hempty, fun ps => by rw [hempty]; rfl⟩

/-- Witness for C1 (amended): id lookup misses in `upsert_page` (a record
with `source_id=None`), fallback finds "pg2" — exactly one update to "pg2"
and no create — while the sync.py variant's all-Class-mismatch destination
returns no result for the probe lookup. -/
theorem upsert_fallback_correct_witness :
    (updatesOf (upsert_page upsertRemoteFallbackHit none propsProbe
        (some "Assignment Name") (some "Essay 1") none none none none).2 = ["pg2"]
    ∧ createsOf (upsert_page upsertRemoteFallbackHit none propsProbe
        (some "Assignment Name") (some "Essay 1") none none none none).2 = []
    ∧ (upsert_page upsertRemoteFallbackHit none propsProbe
        (some "Assignment Name") (some "Essay 1") none none none none).1 =
        Except.ok ("pg2", "updated"))
    ∧ queryEval [(c1DestPage, c1DestProps)]
        (QFilter.conj (notion_query_by_unique_filters none (some "Essay 1")
          (some "History 101") (some "2025-03-10"))) = [] :=
  ⟨(upsert_fallback_correct upsertRemoteFallbackHit none propsProbe
      (some "Assignment Name") (some "Essay 1") none none none none).1
    ⟨"pg2"⟩ [] rfl rfl rfl rfl rfl,
   ((upsert_fallback_correct upsertRemoteFallbackHit none propsProbe
      (some "Assignment Name") (some "Essay 1") none none none none).2.2.2.2
    [(c1DestPage, c1DestProps)] "Essay 1" "History 101" "2025-03-10"
    (by decide) (by decide)
    (by
      intro pr hpr
      rw [List.mem_singleton] at hpr
      subst hpr
      decide)).1⟩

/-! ## Claim C2 -/

/-- C2 counterexample: the claim says that for a record with no due date the
payload sent on a CREATE call contains no date field at all.  On the cited
sync.py path this fails at this concrete input: `build_props` of an undated
record contains `"Due Date": {"date": None}` (via `make_date(None)`), and
the create decision at sync.py lines 409–411 sends that payload unchanged —
the CREATE call carries the date field with an explicit null, and there is
no create/update asymmetry on this path. -/
theorem sync_create_null_date_counterexample :
    ("Due Date", PropValue.date none) ∈ build_props undatedRecordProbe
    ∧ sync_upsert_step [] (build_props undatedRecordProbe) =
        Call.createPage (build_props undatedRecordProbe) :=
  ⟨by decide, rfl⟩

/-- C2 (amended): in notion_api.py `upsert_page`, for a record with no due
date — its payload carrying the explicit null date `{"date": None}` under
its date key — every CREATE call sends a payload with no date key at all,
while every UPDATE call sends a payload retaining the date key with the
explicit null clear instruction, an intentional create/update asymmetry.
The sync.py driver's own paths diverge: `build_props` of an undated record
always contains the explicit null date entry, and its create step sends the
payload unchanged, so there the CREATE payload carries the date field with
an explicit null. -/
theorem upsert_null_date_asymmetry (remote : Remote) (cid : Option Int)
    (props : List (String × PropValue)) (tp tt d1 d2 d3 d4 : Option String)
    (k : String) (hnd : (props.map Prod.fst).Nodup)
    (hk : (k, PropValue.date none) ∈ props) :
    (∀ ps ∈ createsOf (upsert_page remote cid props tp tt d1 d2 d3 d4).2,
        k ∉ ps.map Prod.fst)
    ∧ (∀ pid ps,
        Call.updatePage pid ps ∈ (upsert_page remote cid props tp tt d1 d2 d3 d4).2 →
        (k, PropValue.date none) ∈ ps)
    ∧ (∀ r : SyncRecord, r.due_at = none →
        ("Due Date", PropValue.date none) ∈ build_props r)
    ∧ (∀ ps : List (String × PropValue),
        sync_upsert_step [] ps = Call.createPage ps) := by
  obtain ⟨hcre, hupd⟩ := upsert_payload_shapes remote cid props tp tt d1 d2 d3 d4
  have hdrop1 : k ∉ (drop_null_dates_for_create props).map Prod.fst :=
    drop_null_dates_for_create_not_mem props k hnd hk
  have hnorm_mem : (k, PropValue.date none) ∈ normalize_date_for_update props :=
    normalize_date_for_update_mem props k hk
  have hnorm_nd : ((normalize_date_for_update props).map Prod.fst).Nodup := by
    rw [normalize_date_for_update_keys]
    exact hnd
  have hdrop2 :
      k ∉ (drop_null_dates_for_create (normalize_date_for_update props)).map Prod.fst :=
    drop_null_dates_for_create_not_mem (normalize_date_for_update props) k
      hnorm_nd hnorm_mem
  refine ⟨?_, ?_, ?_, fun ps => rfl⟩
  · intro ps hps
    rcases hcre ps hps with rfl | rfl
    · exact hdrop1
    · exact hdrop2
  · intro pid ps h
    rw [hupd pid ps h]
    exact hnorm_mem
  · intro r hdue
    simp [build_props, List.mem_append, make_date, hdue]

/-- Witness for C2 (amended): on an engine create (double miss) the
"Due Date" key is dropped from the sent payload; on a fallback update the
sent payload keeps "Due Date" with the explicit null; and `build_props` of
the undated probe record carries the explicit null date entry that sync.py's
create step would send unchanged. -/
theorem upsert_null_date_asymmetry_witness :
    "Due Date" ∉ (drop_null_dates_for_create propsProbe).map Prod.fst
    ∧ ("Due Date", PropValue.date none) ∈ normalize_date_for_update propsProbe
    ∧ ("Due Date", PropValue.date none) ∈ build_props undatedRecordProbe :=
  ⟨(upsert_null_date_asymmetry upsertRemoteMiss none propsProbe
      (some "Assignment Name") (some "Essay 1") none none none none
      "Due Date" (by decide) (by decide)).1
      (drop_null_dates_for_create propsProbe) (List.Mem.head _),
   (upsert_null_date_asymmetry upsertRemoteFb2 none propsProbe
      (some "Assignment Name") (some "Essay 1") none none none none
      "Due Date" (by decide) (by decide)).2.1
      "pg3" (normalize_date_for_update propsProbe)
      (List.Mem.tail _ (List.Mem.tail _ (List.Mem.head _))),
   (upsert_null_date_asymmetry upsertRemoteMiss none propsProbe
      (some "Assignment Name") (some "Essay 1") none none none none
      "Due Date" (by decide) (by decide)).2.2.1
      undatedRecordProbe rfl⟩

end CanvasNotionSync
